import Mathlib

/-
Verification of the Origo text-analysis core against its specification.

The development embeds, in Lean, the data model and the operations of the
Origo repository: the seven analysis dimensions, the default weight table,
the score classification and formatting utilities of
frontend/src/utils/colorUtils.ts, the request/response validation of
frontend/src/services/api.ts, and — where the backend implementation is not
part of the source tree — models of WeightResolver, AnalysisCoordinator,
EvidenceRanker and the semantic-coherence aggregation written from the
specification text. Scores and weights are represented as rationals.
-/

namespace Origo

/-- The fixed closed set of seven analysis dimensions (types/analysis.ts,
GlobalScores / DimensionToggleSettings keys). -/
inductive Dimension
  | perplexity
  | burstiness
  | semantic_coherence
  | ngram_repetition
  | lexical_richness
  | stylistic_markers
  | readability
deriving DecidableEq, Repr

/-- All seven dimensions, in the order used by the frontend
(AnalysisResults.tsx, allDimensionTabs). -/
def Dimension.all : List Dimension :=
  [.perplexity, .burstiness, .semantic_coherence, .ngram_repetition,
   .lexical_richness, .stylistic_markers, .readability]

theorem Dimension.mem_all (d : Dimension) : d ∈ Dimension.all := by
  cases d <;> simp [Dimension.all]

/-- The default per-dimension weight table of
components/AnalysisDimensions.tsx (7-dimension version): 0.143 for six
dimensions and 0.142 for readability. -/
def DEFAULT_WEIGHTS : Dimension → ℚ
  | .readability => 142/1000
  | _ => 143/1000

/- ---------------------------------------------------------------
   utils/colorUtils.ts
   --------------------------------------------------------------- -/

/-- The three score levels of colorUtils.ts (type ScoreLevel). -/
inductive ScoreLevel
  | low
  | medium
  | high
deriving DecidableEq, Repr

/-- getScoreLevel of colorUtils.ts: low for score up to 0.5, medium up to
0.7, high above. -/
def getScoreLevel (score : ℚ) : ScoreLevel :=
  if score ≤ 1/2 then .low
  else if score ≤ 7/10 then .medium
  else .high

/-- getScoreLabel of colorUtils.ts. -/
def getScoreLabel (score : ℚ) : String :=
  match getScoreLevel score with
  | .low => "Natural"
  | .medium => "Moderate"
  | .high => "Suspicious"

/-- getScoreDescription of colorUtils.ts. -/
def getScoreDescription (score : ℚ) : String :=
  match getScoreLevel score with
  | .low => "Shows natural human-like patterns"
  | .medium => "Shows some suspicious patterns"
  | .high => "Shows strong AI-like patterns"

/-- The colour record returned by getScoreColors. -/
structure ScoreColors where
  primary : String
  background : String
  border : String
  text : String
deriving DecidableEq, Repr

/-- The green palette of getScoreColors. -/
def lowPalette : ScoreColors :=
  { primary := "#22c55e", background := "#dcfce7",
    border := "#16a34a", text := "#15803d" }

/-- The yellow palette of getScoreColors. -/
def mediumPalette : ScoreColors :=
  { primary := "#eab308", background := "#fef3c7",
    border := "#ca8a04", text := "#a16207" }

/-- The red palette of getScoreColors. -/
def highPalette : ScoreColors :=
  { primary := "#ef4444", background := "#fee2e2",
    border := "#dc2626", text := "#b91c1c" }

/-- getScoreColors of colorUtils.ts. -/
def getScoreColors (score : ℚ) : ScoreColors :=
  match getScoreLevel score with
  | .low => lowPalette
  | .medium => mediumPalette
  | .high => highPalette

/-- The SCORE_THRESHOLDS constant of colorUtils.ts. -/
structure ScoreThresholds where
  LOW_UPPER : ℚ
  MEDIUM_UPPER : ℚ
  HIGH_LOWER : ℚ
deriving DecidableEq, Repr

def SCORE_THRESHOLDS : ScoreThresholds :=
  { LOW_UPPER := 3/10, MEDIUM_UPPER := 6/10, HIGH_LOWER := 6/10 }

/-- The three-way classification induced by the SCORE_THRESHOLDS ranges as
documented next to them in colorUtils.ts (0-30% natural, 31-60% moderate,
61-100% suspicious); used to compare against getScoreLevel. -/
def levelFromThresholds (score : ℚ) : ScoreLevel :=
  if score ≤ SCORE_THRESHOLDS.LOW_UPPER then .low
  else if score ≤ SCORE_THRESHOLDS.MEDIUM_UPPER then .medium
  else .high

/-- isValidScore of colorUtils.ts: the score is a number between 0 and 1. -/
def isValidScore (score : ℚ) : Bool :=
  decide (0 ≤ score) && decide (score ≤ 1)

/-- Decimal rendering of a rational to a fixed number of decimals,
modelling JavaScript Number.prototype.toFixed on the exact value. -/
def toFixedQ (q : ℚ) (d : ℕ) : String :=
  let scaled : ℤ := ⌊q * (10 : ℚ) ^ d + 1/2⌋
  let sign : String := if scaled < 0 then "-" else ""
  let digits : String := toString scaled.natAbs
  let padded : String :=
    if digits.length < d + 1 then
      String.mk (List.replicate (d + 1 - digits.length) '0') ++ digits
    else digits
  if d = 0 then sign ++ padded
  else sign ++ padded.take (padded.length - d) ++ "." ++ padded.drop (padded.length - d)

/-- formatScoreAsPercentage of colorUtils.ts: N/A for invalid scores,
otherwise the score times 100 rendered to the requested decimals with a
percent sign. -/
def formatScoreAsPercentage (score : ℚ) (decimals : ℕ) : String :=
  if isValidScore score then toFixedQ (score * 100) decimals ++ "%"
  else "N/A"

/- ---------------------------------------------------------------
   types/analysis.ts (data model) and services/api.ts (analyzeText)
   --------------------------------------------------------------- -/

/-- An evidence unit as serialized by the backend contract: a severity
score and a character span (startIndex/endIndex) into the original
text. -/
structure Evidence where
  severity : ℚ
  startIndex : ℕ
  endIndex : ℕ
deriving DecidableEq, Repr

/-- GlobalScores of types/analysis.ts: per-dimension score, null for
inactive dimensions. -/
def GlobalScores : Type := Dimension → Option ℚ

/-- DimensionAnalysisResult of types/analysis.ts. -/
structure DimensionAnalysisResult where
  score : ℚ
  weight : ℚ
  active : Bool
  evidences : List Evidence
  topEvidences : List Evidence
  totalEvidences : ℕ

/-- DimensionResults of types/analysis.ts: one DimensionAnalysisResult per
dimension. -/
def DimensionResults : Type := Dimension → DimensionAnalysisResult

/-- DimensionToggleSettings of types/analysis.ts. -/
structure DimensionToggleSettings where
  perplexity : Bool
  burstiness : Bool
  semantic_coherence : Bool
  ngram_repetition : Bool
  lexical_richness : Bool
  stylistic_markers : Bool
  readability : Bool
deriving DecidableEq, Repr

/-- TextAnalysisRequest of types/analysis.ts: the payload analyzeText
posts to the backend. -/
structure TextAnalysisRequest where
  text : String
  enabled_dimensions : Option DimensionToggleSettings

/-- The fields of a server response body that analyzeText inspects; a
field is none when it is absent, null, or (for overall_score) not a
number. -/
structure ServerBody where
  overall_score : Option ℚ
  global_scores : Option GlobalScores
  dimension_results : Option DimensionResults

/-- The validated analysis result analyzeText resolves with: all three
inspected fields present. -/
structure ValidatedAnalysisResult where
  overall_score : ℚ
  global_scores : GlobalScores
  dimension_results : DimensionResults

/-- JavaScript String.prototype.trim as used by analyzeText: remove
whitespace from both ends of the string. -/
def jsTrim (s : String) : String :=
  ⟨((s.data.dropWhile Char.isWhitespace).reverse.dropWhile Char.isWhitespace).reverse⟩

/-- The input-validation step of analyzeText (services/api.ts): an error
message when the text is empty or shorter than 10 characters after
trimming, or longer than 50000 characters. -/
def validateAnalyzeInput (text : String) : Option String :=
  if text = "" ∨ (jsTrim text).length < 10 then
    some "Text must be at least 10 characters long"
  else if text.length > 50000 then
    some "Text must be less than 50,000 characters"
  else none

/-- The request payload analyzeText builds (services/api.ts): trimmed
text plus the dimension toggles. -/
def buildAnalyzeRequest (text : String) (dims : Option DimensionToggleSettings) :
    TextAnalysisRequest :=
  { text := jsTrim text, enabled_dimensions := dims }

/-- The first half of analyzeText (services/api.ts): validate the input,
then either throw or submit the request. -/
def submitAnalyzeRequest (text : String) (dims : Option DimensionToggleSettings) :
    Except String TextAnalysisRequest :=
  match validateAnalyzeInput text with
  | some e => .error e
  | none => .ok (buildAnalyzeRequest text dims)

/-- The response-validation half of analyzeText (services/api.ts): reject
a missing body, a non-number overall_score, and missing global_scores or
dimension_results, in that order. -/
def validateAnalyzeResponse (body : Option ServerBody) :
    Except String ValidatedAnalysisResult :=
  match body with
  | none => .error "Invalid response from server"
  | some b =>
    match b.overall_score with
    | none => .error "Invalid response: missing overall_score"
    | some sc =>
      match b.global_scores with
      | none => .error "Invalid response: missing global_scores"
      | some gs =>
        match b.dimension_results with
        | none => .error "Invalid response: missing dimension_results"
        | some dr =>
          .ok { overall_score := sc, global_scores := gs, dimension_results := dr }

/-- analyzeText of services/api.ts, with the backend abstracted as a
function from the posted request to the response body it returns. -/
def analyzeText (text : String) (dims : Option DimensionToggleSettings)
    (server : TextAnalysisRequest → Option ServerBody) :
    Except String ValidatedAnalysisResult :=
  match submitAnalyzeRequest text dims with
  | .error e => .error e
  | .ok req => validateAnalyzeResponse (server req)

/- ---------------------------------------------------------------
   Backend components. The backend sources (analysis coordinator, weight
   resolver, evidence ranker, per-dimension analyzers) are not part of
   the repository tree here, so they are modelled from the
   specification text.
   --------------------------------------------------------------- -/

/-- Modelled from the spec: WeightResolver.resolve of the missing backend
(spec 4.3). It takes only the enabled subset of the base weights,
renormalizes proportionally, and fails with NoActiveDimensionsError when
the enabled set is empty; weights outside the enabled set are dropped
(rendered as zero). -/
def resolve (baseWeights : Dimension → ℚ) (enabled : List Dimension) :
    Except String (Dimension → ℚ) :=
  if enabled = [] then .error "NoActiveDimensionsError"
  else
    let total := (enabled.map baseWeights).sum
    .ok fun d => if d ∈ enabled then baseWeights d / total else 0

/-- Modelled from the spec: the overall-score computation of the missing
backend AnalysisCoordinator (spec 4.4): the weighted sum of the active
dimensions' scores. -/
def overallScore (weights scores : Dimension → ℚ) (active : List Dimension) : ℚ :=
  (active.map fun d => weights d * scores d).sum

/-- The assembled analysis result of the coordinator model: overall
score, per-dimension global scores (null for inactive dimensions),
applied weights and the active-dimension list. -/
structure CoordinatorResult where
  overall_score : ℚ
  global_scores : GlobalScores
  weights_applied : Dimension → ℚ
  active_dimensions : List Dimension

/-- Modelled from the spec: the missing backend AnalysisCoordinator run
(spec 4.4 and 7): each enabled dimension's analyzer outcome is a score or
a failure (none); failed dimensions are dropped from the active set and
from weight renormalization, their global score is null, and the request
fails only when zero analyzers survive. -/
def runCoordinator (baseWeights : Dimension → ℚ) (enabled : List Dimension)
    (outcome : Dimension → Option ℚ) : Except String CoordinatorResult :=
  match resolve baseWeights (enabled.filter fun x => (outcome x).isSome) with
  | .error e => .error e
  | .ok w =>
    .ok { overall_score := overallScore w (fun x => (outcome x).getD 0)
            (enabled.filter fun x => (outcome x).isSome)
          global_scores := fun x =>
            if x ∈ enabled.filter fun y => (outcome y).isSome then outcome x else none
          weights_applied := w
          active_dimensions := enabled.filter fun x => (outcome x).isSome }

/-- The adjacent pairs of a list: each element with its successor. -/
def adjacentPairs {α : Type} (ps : List α) : List (α × α) :=
  ps.zip ps.tail

/-- Modelled from the spec: the global aggregation of the missing backend
semantic-coherence analyzer (spec 4.2): mean similarity over adjacent
paragraph pairs only, with the neutral fallback 0.5 for single-paragraph
documents. The embedding-and-cosine primitive is abstracted as sim. -/
def semanticCoherence {α : Type} (sim : α → α → ℚ) (ps : List α) : ℚ :=
  if ps.length ≤ 1 then 1/2
  else ((adjacentPairs ps).map fun p => sim p.1 p.2).sum / ((adjacentPairs ps).length : ℚ)

/-- The evidence ordering of the spec (3 and 4.5): descending by
severity, ties broken by earlier character span in the document. -/
def evidenceBefore (a b : Evidence) : Bool :=
  decide (b.severity < a.severity) ||
    (decide (a.severity = b.severity) && decide (a.startIndex ≤ b.startIndex))

/-- Modelled from the spec: EvidenceRanker.rank of the missing backend
(spec 4.5): sort by severity descending with the document-order
tie-break, take the top limit as a view, and report the unfiltered count
as total. -/
def rank (evidences : List Evidence) (limit : ℕ) : List Evidence × ℕ :=
  ((evidences.mergeSort evidenceBefore).take limit, evidences.length)

/- ---------------------------------------------------------------
   Shared helper lemmas
   --------------------------------------------------------------- -/

theorem getScoreLevel_eq_low {s : ℚ} : getScoreLevel s = .low ↔ s ≤ 1/2 := by
  unfold getScoreLevel
  split_ifs with h1 h2 <;> simp_all

theorem getScoreLevel_eq_medium {s : ℚ} :
    getScoreLevel s = .medium ↔ 1/2 < s ∧ s ≤ 7/10 := by
  unfold getScoreLevel
  split_ifs with h1 h2
  · simp only [reduceCtorEq, false_iff]
    rintro ⟨h, -⟩
    linarith
  · simp only [true_iff]
    exact ⟨by linarith, h2⟩
  · simp only [reduceCtorEq, false_iff]
    rintro ⟨-, h⟩
    exact h2 h

theorem getScoreLevel_eq_high {s : ℚ} : getScoreLevel s = .high ↔ 7/10 < s := by
  unfold getScoreLevel
  split_ifs with h1 h2
  · simp only [reduceCtorEq, false_iff]
    intro h
    linarith
  · simp only [reduceCtorEq, false_iff]
    intro h
    linarith
  · simp only [true_iff]
    by_contra h
    exact h2 (by linarith)

theorem append_percent_ne (t : String) : t ++ "%" ≠ "N/A" := by
  intro h
  have hd : (t ++ "%").data = "N/A".data := by rw [h]
  rw [String.data_append] at hd
  have h1 : (t.data ++ "%".data).getLast? = some '%' := List.getLast?_concat _
  rw [hd] at h1
  simp at h1

theorem sum_map_div {α : Type} (l : List α) (f : α → ℚ) (c : ℚ) :
    (l.map fun a => f a / c).sum = (l.map f).sum / c := by
  induction l with
  | nil => simp
  | cons x xs ih => simp [ih, add_div]

theorem resolve_ok (base : Dimension → ℚ) (enabled : List Dimension)
    (h : enabled ≠ []) :
    resolve base enabled =
      .ok fun d => if d ∈ enabled then base d / (enabled.map base).sum else 0 := by
  unfold resolve
  rw [if_neg h]

theorem default_weights_sum : (Dimension.all.map DEFAULT_WEIGHTS).sum = 1 := by
  simp [Dimension.all, DEFAULT_WEIGHTS]
  norm_num

/- ---------------------------------------------------------------
   Claim theorems
   --------------------------------------------------------------- -/

/-- Claim C1: the weights the resolver applies to the active dimensions
always sum to exactly 1, and the default per-dimension weight table
(0.143 for six dimensions, 0.142 for readability) sums to exactly 1. -/
theorem C1_active_weights_sum_to_one :
    (∀ (base : Dimension → ℚ) (enabled : List Dimension) (w : Dimension → ℚ),
      0 < (enabled.map base).sum →
      resolve base enabled = .ok w →
      (enabled.map w).sum = 1)
    ∧ (Dimension.all.map DEFAULT_WEIGHTS).sum = 1 := by
  constructor
  · intro base enabled w hpos hres
    have hne : enabled ≠ [] := by
      rintro rfl
      simp at hpos
    rw [resolve_ok base enabled hne] at hres
    injection hres with h
    subst h
    have hmap : (enabled.map fun d =>
        if d ∈ enabled then base d / (enabled.map base).sum else 0)
        = enabled.map fun d => base d / (enabled.map base).sum :=
      List.map_congr_left fun d hd => if_pos hd
    rw [hmap, sum_map_div, div_self (ne_of_gt hpos)]
  · exact default_weights_sum

/-- Witness for C1: resolving the default weight table over all seven
dimensions yields weights that sum to exactly 1. -/
theorem C1_active_weights_sum_to_one_witness :
    0 < (Dimension.all.map DEFAULT_WEIGHTS).sum
    ∧ (Dimension.all.map fun d =>
        if d ∈ Dimension.all then
          DEFAULT_WEIGHTS d / (Dimension.all.map DEFAULT_WEIGHTS).sum
        else 0).sum = 1 :=
  ⟨by rw [default_weights_sum]; norm_num,
   C1_active_weights_sum_to_one.1 DEFAULT_WEIGHTS Dimension.all _
     (by rw [default_weights_sum]; norm_num)
     (resolve_ok DEFAULT_WEIGHTS Dimension.all (by simp [Dimension.all]))⟩

/-- Claim C7: the weight resolver restricted to the enabled subset
renormalizes to a sum of exactly 1, fails with NoActiveDimensionsError on
an empty enabled set, and is stable — resolving a full table that
already sums to 1 returns every base weight unchanged. -/
theorem C7_weight_resolver_contract :
    (∀ base : Dimension → ℚ, resolve base [] = .error "NoActiveDimensionsError")
    ∧ (∀ (base : Dimension → ℚ) (enabled : List Dimension) (w : Dimension → ℚ),
        0 < (enabled.map base).sum →
        resolve base enabled = .ok w →
        (enabled.map w).sum = 1)
    ∧ (∀ (base w : Dimension → ℚ),
        (Dimension.all.map base).sum = 1 →
        resolve base Dimension.all = .ok w →
        ∀ d, w d = base d) := by
  refine ⟨fun base => rfl, ?_, ?_⟩
  · intro base enabled w hpos hres
    have hne : enabled ≠ [] := by
      rintro rfl
      simp at hpos
    rw [resolve_ok base enabled hne] at hres
    injection hres with h
    subst h
    have hmap : (enabled.map fun d =>
        if d ∈ enabled then base d / (enabled.map base).sum else 0)
        = enabled.map fun d => base d / (enabled.map base).sum :=
      List.map_congr_left fun d hd => if_pos hd
    rw [hmap, sum_map_div, div_self (ne_of_gt hpos)]
  · intro base w hsum hres
    rw [resolve_ok base Dimension.all (by simp [Dimension.all])] at hres
    injection hres with h
    subst h
    intro d
    show (if d ∈ Dimension.all then base d / (Dimension.all.map base).sum else 0) = base d
    rw [if_pos (Dimension.mem_all d), hsum, div_one]

/-- Witness for C7: the resolver fails on the empty set, resolving the
default table sums to 1, and the default table (which sums to 1) is
returned unchanged at the perplexity dimension. -/
theorem C7_weight_resolver_contract_witness :
    resolve DEFAULT_WEIGHTS [] = .error "NoActiveDimensionsError"
    ∧ (Dimension.all.map fun d =>
        if d ∈ Dimension.all then
          DEFAULT_WEIGHTS d / (Dimension.all.map DEFAULT_WEIGHTS).sum
        else 0).sum = 1
    ∧ (if Dimension.perplexity ∈ Dimension.all then
        DEFAULT_WEIGHTS Dimension.perplexity / (Dimension.all.map DEFAULT_WEIGHTS).sum
      else 0) = DEFAULT_WEIGHTS Dimension.perplexity :=
  ⟨C7_weight_resolver_contract.1 DEFAULT_WEIGHTS,
   C7_weight_resolver_contract.2.1 DEFAULT_WEIGHTS Dimension.all _
     (by rw [default_weights_sum]; norm_num)
     (resolve_ok DEFAULT_WEIGHTS Dimension.all (by simp [Dimension.all])),
   C7_weight_resolver_contract.2.2 DEFAULT_WEIGHTS _ default_weights_sum
     (resolve_ok DEFAULT_WEIGHTS Dimension.all (by simp [Dimension.all]))
     Dimension.perplexity⟩

/-- Claim C3: the overall score is the weighted sum of the active
dimensions' scores; with exactly one active dimension the renormalized
weight is exactly 1 and the overall score equals that dimension's
score. -/
theorem C3_overall_score_weighted_sum :
    (∀ (w s : Dimension → ℚ) (active : List Dimension),
      overallScore w s active = (active.map fun d => w d * s d).sum)
    ∧ (∀ (base s : Dimension → ℚ) (d : Dimension) (w : Dimension → ℚ),
        0 < base d →
        resolve base [d] = .ok w →
        w d = 1 ∧ overallScore w s [d] = s d) := by
  constructor
  · intro w s active
    rfl
  · intro base s d w hpos hres
    rw [resolve_ok base [d] (by simp)] at hres
    injection hres with h
    subst h
    constructor
    · simp [div_self (ne_of_gt hpos)]
    · unfold overallScore
      simp [div_self (ne_of_gt hpos)]

/-- Witness for C3: with only perplexity active, its default weight
renormalizes to 1 and the overall score equals the perplexity score. -/
theorem C3_overall_score_weighted_sum_witness :
    (if Dimension.perplexity ∈ [Dimension.perplexity] then
      DEFAULT_WEIGHTS Dimension.perplexity /
        (([Dimension.perplexity].map DEFAULT_WEIGHTS).sum)
    else 0) = 1
    ∧ overallScore
        (fun d => if d ∈ [Dimension.perplexity] then
          DEFAULT_WEIGHTS d / (([Dimension.perplexity].map DEFAULT_WEIGHTS).sum)
        else 0)
        (fun _ => 3/10) [Dimension.perplexity] = 3/10 :=
  C3_overall_score_weighted_sum.2 DEFAULT_WEIGHTS (fun _ => 3/10)
    Dimension.perplexity _
    (by simp [DEFAULT_WEIGHTS])
    (resolve_ok DEFAULT_WEIGHTS [Dimension.perplexity] (by simp))

/-- Claim C8: getScoreLevel is a total three-way classification — low
exactly when the score is at most 0.5, medium exactly when it is above
0.5 and at most 0.7, high exactly above 0.7; the label, description and
colour helpers are defined on all three levels; the SCORE_THRESHOLDS
constants in the same module are 0.3 and 0.6, and the classification
they induce disagrees with getScoreLevel on every score in the intervals
(0.3, 0.5] and (0.6, 0.7]. -/
theorem C8_getScoreLevel_classification :
    (∀ s : ℚ,
      (getScoreLevel s = .low ↔ s ≤ 1/2)
      ∧ (getScoreLevel s = .medium ↔ 1/2 < s ∧ s ≤ 7/10)
      ∧ (getScoreLevel s = .high ↔ 7/10 < s))
    ∧ (∀ s : ℚ, getScoreLabel s = "Natural" ∨ getScoreLabel s = "Moderate"
        ∨ getScoreLabel s = "Suspicious")
    ∧ (∀ s : ℚ, getScoreDescription s = "Shows natural human-like patterns"
        ∨ getScoreDescription s = "Shows some suspicious patterns"
        ∨ getScoreDescription s = "Shows strong AI-like patterns")
    ∧ (∀ s : ℚ, getScoreColors s = lowPalette ∨ getScoreColors s = mediumPalette
        ∨ getScoreColors s = highPalette)
    ∧ SCORE_THRESHOLDS.LOW_UPPER = 3/10
    ∧ SCORE_THRESHOLDS.MEDIUM_UPPER = 6/10
    ∧ (∀ s : ℚ, (3/10 < s ∧ s ≤ 1/2) ∨ (6/10 < s ∧ s ≤ 7/10) →
        getScoreLevel s ≠ levelFromThresholds s) := by
  refine ⟨fun s => ⟨getScoreLevel_eq_low, getScoreLevel_eq_medium, getScoreLevel_eq_high⟩,
    fun s => ?_, fun s => ?_, fun s => ?_, rfl, rfl, fun s h => ?_⟩
  · unfold getScoreLabel
    cases getScoreLevel s <;> simp
  · unfold getScoreDescription
    cases getScoreLevel s <;> simp
  · unfold getScoreColors
    cases getScoreLevel s <;> simp
  · rcases h with ⟨h1, h2⟩ | ⟨h1, h2⟩
    · have hl : getScoreLevel s = .low := getScoreLevel_eq_low.mpr h2
      have ht : levelFromThresholds s = .medium := by
        unfold levelFromThresholds SCORE_THRESHOLDS
        split_ifs with a b
        · exfalso
          simp only at a
          linarith
        · rfl
        · exfalso
          simp only at b
          exact b (by linarith)
      rw [hl, ht]
      simp
    · have hl : getScoreLevel s = .medium := getScoreLevel_eq_medium.mpr ⟨by linarith, h2⟩
      have ht : levelFromThresholds s = .high := by
        unfold levelFromThresholds SCORE_THRESHOLDS
        split_ifs with a b
        · exfalso
          simp only at a
          linarith
        · exfalso
          simp only at b
          linarith
        · rfl
      rw [hl, ht]
      simp

/-- Witness for C8 at concrete scores: 0.4 is classified low by
getScoreLevel but differs from the SCORE_THRESHOLDS classification, and
0.65 is classified medium but differs as well. -/
theorem C8_getScoreLevel_classification_witness :
    getScoreLevel (2/5) = .low
    ∧ getScoreLevel (2/5) ≠ levelFromThresholds (2/5)
    ∧ getScoreLevel (13/20) = .medium
    ∧ getScoreLevel (13/20) ≠ levelFromThresholds (13/20) :=
  ⟨(C8_getScoreLevel_classification.1 (2/5)).1.mpr (by norm_num),
   C8_getScoreLevel_classification.2.2.2.2.2.2 (2/5) (Or.inl ⟨by norm_num, by norm_num⟩),
   (C8_getScoreLevel_classification.1 (13/20)).2.1.mpr ⟨by norm_num, by norm_num⟩,
   C8_getScoreLevel_classification.2.2.2.2.2.2 (13/20) (Or.inr ⟨by norm_num, by norm_num⟩)⟩

theorem submitAnalyzeRequest_eq (text : String) (dims : Option DimensionToggleSettings) :
    submitAnalyzeRequest text dims =
      if text = "" ∨ (jsTrim text).length < 10 then
        .error "Text must be at least 10 characters long"
      else if text.length > 50000 then
        .error "Text must be less than 50,000 characters"
      else .ok (buildAnalyzeRequest text dims) := by
  unfold submitAnalyzeRequest validateAnalyzeInput
  split_ifs <;> rfl

theorem empty_trim_short (text : String) (h : text = "") : (jsTrim text).length < 10 := by
  subst h
  decide

/-- Claim C4: analyzeText fails with a validation error exactly when the
trimmed text is shorter than 10 characters or the raw text exceeds 50000
characters; inside those bounds it submits the trimmed request instead
of throwing; and out-of-bounds text is rejected before any request is
sent, so the outcome does not depend on the server. -/
theorem C4_analyzeText_length_validation :
    ∀ (text : String) (dims : Option DimensionToggleSettings),
      ((∃ e, submitAnalyzeRequest text dims = .error e) ↔
        ((jsTrim text).length < 10 ∨ text.length > 50000))
      ∧ (10 ≤ (jsTrim text).length → text.length ≤ 50000 →
          submitAnalyzeRequest text dims = .ok (buildAnalyzeRequest text dims))
      ∧ (∀ server₁ server₂ : TextAnalysisRequest → Option ServerBody,
          ((jsTrim text).length < 10 ∨ text.length > 50000) →
          analyzeText text dims server₁ = analyzeText text dims server₂) := by
  intro text dims
  refine ⟨⟨?_, ?_⟩, ?_, ?_⟩
  · rintro ⟨e, he⟩
    rw [submitAnalyzeRequest_eq] at he
    split_ifs at he with h1 h2
    · rcases h1 with h | h
      · exact Or.inl (empty_trim_short text h)
      · exact Or.inl h
    · exact Or.inr h2
  · intro h
    rw [submitAnalyzeRequest_eq]
    split_ifs with h1 h2
    · exact ⟨_, rfl⟩
    · exact ⟨_, rfl⟩
    · exfalso
      rcases h with h | h
      · exact h1 (Or.inr h)
      · exact h2 h
  · intro hlen hmax
    have hne : ¬(text = "" ∨ (jsTrim text).length < 10) := by
      rintro (h | h)
      · have := empty_trim_short text h
        omega
      · omega
    have hle : ¬(text.length > 50000) := by omega
    rw [submitAnalyzeRequest_eq, if_neg hne, if_neg hle]
  · intro server₁ server₂ h
    unfold analyzeText
    rw [submitAnalyzeRequest_eq]
    split_ifs with h1 h2
    · rfl
    · rfl
    · exfalso
      rcases h with h | h
      · exact h1 (Or.inr h)
      · exact h2 h

/-- Witness for C4: a 19-character text is submitted as a trimmed
request, and a 5-character text produces a validation error. -/
theorem C4_analyzeText_length_validation_witness :
    submitAnalyzeRequest "AI wrote this text." none =
      .ok (buildAnalyzeRequest "AI wrote this text." none)
    ∧ (∃ e, submitAnalyzeRequest "short" none = .error e) :=
  ⟨(C4_analyzeText_length_validation "AI wrote this text." none).2.1
      (by decide) (by decide),
   (C4_analyzeText_length_validation "short" none).1.mpr (Or.inl (by decide))⟩

/-- A degenerate dimension result, used as sample data. -/
def sampleDimensionResult : DimensionAnalysisResult :=
  { score := 0, weight := 0, active := false,
    evidences := [], topEvidences := [], totalEvidences := 0 }

/-- A well-formed sample server body: all three inspected fields present. -/
def sampleServerBody : ServerBody :=
  { overall_score := some (1/2)
    global_scores := some fun _ => none
    dimension_results := some fun _ => sampleDimensionResult }

/-- The validated result corresponding to sampleServerBody. -/
def sampleValidated : ValidatedAnalysisResult :=
  { overall_score := 1/2
    global_scores := fun _ => none
    dimension_results := fun _ => sampleDimensionResult }

/-- Claim C9: analyzeText never resolves with a malformed result — every
value it returns is built from a response whose overall_score is a
number and whose global_scores and dimension_results are present, and a
response missing any of those produces an error instead. -/
theorem C9_analyzeText_response_validation :
    (∀ body : Option ServerBody,
      (∀ v, validateAnalyzeResponse body = .ok v →
        ∃ b, body = some b
          ∧ b.overall_score = some v.overall_score
          ∧ b.global_scores = some v.global_scores
          ∧ b.dimension_results = some v.dimension_results)
      ∧ ((body = none
          ∨ ∃ b, body = some b ∧ (b.overall_score = none ∨ b.global_scores = none
              ∨ b.dimension_results = none)) →
          ∃ e, validateAnalyzeResponse body = .error e))
    ∧ (∀ (text : String) (dims : Option DimensionToggleSettings)
        (server : TextAnalysisRequest → Option ServerBody) v,
        analyzeText text dims server = .ok v →
        validateAnalyzeResponse (server (buildAnalyzeRequest text dims)) = .ok v) := by
  constructor
  · intro body
    constructor
    · intro v hv
      match body with
      | none => simp [validateAnalyzeResponse] at hv
      | some b =>
        match hsc : b.overall_score with
        | none => simp [validateAnalyzeResponse, hsc] at hv
        | some sc =>
          match hgs : b.global_scores with
          | none => simp [validateAnalyzeResponse, hsc, hgs] at hv
          | some gs =>
            match hdr : b.dimension_results with
            | none => simp [validateAnalyzeResponse, hsc, hgs, hdr] at hv
            | some dr =>
              refine ⟨b, rfl, ?_, ?_, ?_⟩ <;>
                · simp only [validateAnalyzeResponse, hsc, hgs, hdr] at hv
                  cases hv
                  simp [hsc, hgs, hdr]
    · rintro (rfl | ⟨b, rfl, hbad⟩)
      · exact ⟨_, rfl⟩
      · rcases hbad with h | h | h
        · simp only [validateAnalyzeResponse, h]
          exact ⟨_, rfl⟩
        · match hsc : b.overall_score with
          | none =>
            simp only [validateAnalyzeResponse, hsc]
            exact ⟨_, rfl⟩
          | some sc =>
            simp only [validateAnalyzeResponse, hsc, h]
            exact ⟨_, rfl⟩
        · match hsc : b.overall_score with
          | none =>
            simp only [validateAnalyzeResponse, hsc]
            exact ⟨_, rfl⟩
          | some sc =>
            match hgs : b.global_scores with
            | none =>
              simp only [validateAnalyzeResponse, hsc, hgs]
              exact ⟨_, rfl⟩
            | some gs =>
              simp only [validateAnalyzeResponse, hsc, hgs, h]
              exact ⟨_, rfl⟩
  · intro text dims server v h
    unfold analyzeText at h
    rw [submitAnalyzeRequest_eq] at h
    split_ifs at h
    exact h

/-- Witness for C9: a missing body yields an error, and a complete
sample body passes through analyzeText to the validated result. -/
theorem C9_analyzeText_response_validation_witness :
    (∃ e, validateAnalyzeResponse none = .error e)
    ∧ validateAnalyzeResponse
        ((fun _ => some sampleServerBody)
          (buildAnalyzeRequest "This text is long enough." none)) =
        .ok sampleValidated :=
  ⟨(C9_analyzeText_response_validation.1 none).2 (Or.inl rfl),
   C9_analyzeText_response_validation.2 "This text is long enough." none
      (fun _ => some sampleServerBody) sampleValidated rfl⟩

/-- Claim C10: formatScoreAsPercentage returns N/A exactly when the score
is not in the unit interval; for every score in the unit interval the
N/A branch is unreachable and the result is the score times 100 rendered
to the requested decimals followed by a percent sign. -/
theorem C10_formatScoreAsPercentage_guarded :
    ∀ (s : ℚ) (d : ℕ),
      (formatScoreAsPercentage s d = "N/A" ↔ ¬ (0 ≤ s ∧ s ≤ 1))
      ∧ (0 ≤ s → s ≤ 1 →
          formatScoreAsPercentage s d = toFixedQ (s * 100) d ++ "%") := by
  intro s d
  constructor
  · unfold formatScoreAsPercentage
    split_ifs with h
    · simp only [isValidScore, Bool.and_eq_true, decide_eq_true_eq] at h
      exact ⟨fun hc => absurd hc (append_percent_ne _), fun hc => absurd h hc⟩
    · simp only [isValidScore, Bool.and_eq_true, decide_eq_true_eq] at h
      exact ⟨fun _ => h, fun _ => rfl⟩
  · intro h0 h1
    unfold formatScoreAsPercentage
    rw [if_pos]
    simp only [isValidScore, Bool.and_eq_true, decide_eq_true_eq]
    exact ⟨h0, h1⟩

/-- Witness for C10: at score 0.42 with 0 decimals the result is the
rendered percentage, and at score 1.5 the result is N/A. -/
theorem C10_formatScoreAsPercentage_guarded_witness :
    formatScoreAsPercentage (42/100) 0 = toFixedQ ((42/100) * 100) 0 ++ "%"
    ∧ formatScoreAsPercentage (3/2) 0 = "N/A" :=
  ⟨(C10_formatScoreAsPercentage_guarded (42/100) 0).2 (by norm_num) (by norm_num),
   (C10_formatScoreAsPercentage_guarded (3/2) 0).1.mpr (by norm_num)⟩

/-- Claim C5: the failure of a single dimension's analyzer does not abort
the request when at least one enabled analyzer succeeds — the result is
still produced, the failed dimension is not active, its global score is
null, and it receives no weight in the renormalization. -/
theorem C5_partial_failure_isolation :
    ∀ (base : Dimension → ℚ) (enabled : List Dimension)
      (outcome : Dimension → Option ℚ) (d d' : Dimension),
      d ∈ enabled → outcome d = none →
      d' ∈ enabled → (outcome d').isSome →
      ∃ r, runCoordinator base enabled outcome = .ok r
        ∧ d ∉ r.active_dimensions
        ∧ r.global_scores d = none
        ∧ r.weights_applied d = 0 := by
  intro base enabled outcome d d' hd hfail hd' hsucc
  unfold runCoordinator
  have hmem : d' ∈ enabled.filter fun x => (outcome x).isSome :=
    List.mem_filter.mpr ⟨hd', hsucc⟩
  have hne : (enabled.filter fun x => (outcome x).isSome) ≠ [] :=
    List.ne_nil_of_mem hmem
  have hdnot : d ∉ enabled.filter fun x => (outcome x).isSome := by
    intro hc
    have := (List.mem_filter.mp hc).2
    rw [hfail] at this
    simp at this
  rw [resolve_ok base _ hne]
  refine ⟨_, rfl, hdnot, ?_, ?_⟩
  · show (if d ∈ enabled.filter (fun x => (outcome x).isSome) then outcome d else none)
      = none
    rw [if_neg hdnot]
  · show (if d ∈ enabled.filter (fun x => (outcome x).isSome) then
        base d / ((enabled.filter fun x => (outcome x).isSome).map base).sum
      else 0) = 0
    rw [if_neg hdnot]

/-- Witness for C5: a failed perplexity analyzer with six succeeding
dimensions still yields a result, with perplexity inactive, a null
global score, and weight zero. -/
theorem C5_partial_failure_isolation_witness :
    ∃ r, runCoordinator DEFAULT_WEIGHTS Dimension.all
        (fun x => match x with
          | Dimension.perplexity => none
          | _ => some (1/2)) = .ok r
      ∧ Dimension.perplexity ∉ r.active_dimensions
      ∧ r.global_scores Dimension.perplexity = none
      ∧ r.weights_applied Dimension.perplexity = 0 :=
  C5_partial_failure_isolation DEFAULT_WEIGHTS Dimension.all
    (fun x => match x with
      | Dimension.perplexity => none
      | _ => some (1/2))
    Dimension.perplexity Dimension.burstiness
    (Dimension.mem_all _) rfl (Dimension.mem_all _) rfl

/-- Claim C6: a single-paragraph document yields the neutral fallback
score 0.5 for semantic coherence, and a multi-paragraph document's
global score is the mean similarity over the adjacent paragraph pairs
only — it depends on nothing but the similarities of adjacent pairs. -/
theorem C6_semantic_coherence_aggregation :
    (∀ {α : Type} (sim : α → α → ℚ) (p : α), semanticCoherence sim [p] = 1/2)
    ∧ (∀ {α : Type} (ps : List α), (adjacentPairs ps).length = ps.length - 1)
    ∧ (∀ {α : Type} (sim : α → α → ℚ) (ps : List α), 2 ≤ ps.length →
        semanticCoherence sim ps =
          ((adjacentPairs ps).map fun p => sim p.1 p.2).sum / ((ps.length - 1 : ℕ) : ℚ))
    ∧ (∀ {α : Type} (sim sim' : α → α → ℚ) (ps : List α),
        (∀ p ∈ adjacentPairs ps, sim p.1 p.2 = sim' p.1 p.2) →
        semanticCoherence sim ps = semanticCoherence sim' ps) := by
  have hlen : ∀ {α : Type} (ps : List α), (adjacentPairs ps).length = ps.length - 1 := by
    intro α ps
    show (ps.zip ps.tail).length = ps.length - 1
    rw [List.length_zip, List.length_tail]
    exact min_eq_right (Nat.sub_le _ _)
  refine ⟨?_, hlen, ?_, ?_⟩
  · intro α sim p
    unfold semanticCoherence
    rw [if_pos]
    simp
  · intro α sim ps hps
    unfold semanticCoherence
    rw [if_neg (by omega), hlen]
  · intro α sim sim' ps hsim
    unfold semanticCoherence
    split_ifs with h
    · rfl
    · rw [List.map_congr_left hsim]

/-- Witness for C6: a one-paragraph document scores 0.5, and a
three-paragraph document scores the mean of its two adjacent-pair
similarities. -/
theorem C6_semantic_coherence_aggregation_witness :
    semanticCoherence (fun a b : ℕ => ((a + b : ℕ) : ℚ)) [5] = 1/2
    ∧ (adjacentPairs [0, 1, 2]).length = ([0, 1, 2] : List ℕ).length - 1
    ∧ semanticCoherence (fun a b : ℕ => ((a + b : ℕ) : ℚ)) [0, 1, 2] =
        ((adjacentPairs [0, 1, 2]).map fun p => ((p.1 + p.2 : ℕ) : ℚ)).sum /
          ((([0, 1, 2] : List ℕ).length - 1 : ℕ) : ℚ)
    ∧ semanticCoherence (fun a b : ℕ => ((a + b : ℕ) : ℚ)) [0, 1, 2] =
        semanticCoherence
          (fun a b : ℕ => if 10 < a + b then 99 else ((a + b : ℕ) : ℚ)) [0, 1, 2] :=
  ⟨C6_semantic_coherence_aggregation.1 _ 5,
   C6_semantic_coherence_aggregation.2.1 [0, 1, 2],
   C6_semantic_coherence_aggregation.2.2.1 _ [0, 1, 2] (by decide),
   C6_semantic_coherence_aggregation.2.2.2 _ _ [0, 1, 2] (by decide)⟩

theorem evidenceBefore_trans (a b c : Evidence) :
    evidenceBefore a b → evidenceBefore b c → evidenceBefore a c := by
  unfold evidenceBefore
  simp only [Bool.or_eq_true, Bool.and_eq_true, decide_eq_true_eq]
  rintro (h1 | ⟨h1, h1'⟩) (h2 | ⟨h2, h2'⟩)
  · exact Or.inl (lt_trans h2 h1)
  · exact Or.inl (h2 ▸ h1)
  · exact Or.inl (by rw [h1]; exact h2)
  · exact Or.inr ⟨h1.trans h2, le_trans h1' h2'⟩

theorem evidenceBefore_total (a b : Evidence) :
    evidenceBefore a b || evidenceBefore b a := by
  unfold evidenceBefore
  simp only [Bool.or_eq_true, Bool.and_eq_true, decide_eq_true_eq]
  rcases lt_trichotomy a.severity b.severity with h | h | h
  · exact Or.inr (Or.inl h)
  · rcases le_total a.startIndex b.startIndex with hs | hs
    · exact Or.inl (Or.inr ⟨h, hs⟩)
    · exact Or.inr (Or.inr ⟨h.symm, hs⟩)
  · exact Or.inl (Or.inl h)

/-- Claim C2: the top-evidence view has length min(10, totalEvidences),
is sorted descending by severity with ties broken by earlier character
span, and producing it never shrinks the full list — the reported total
is the unfiltered evidence count. -/
theorem C2_evidence_ranking :
    ∀ evidences : List Evidence,
      (rank evidences 10).1.length = min 10 evidences.length
      ∧ (rank evidences 10).1.Pairwise (fun a b =>
          b.severity < a.severity
          ∨ (a.severity = b.severity ∧ a.startIndex ≤ b.startIndex))
      ∧ (rank evidences 10).2 = evidences.length := by
  intro evs
  refine ⟨?_, ?_, rfl⟩
  · show ((evs.mergeSort evidenceBefore).take 10).length = min 10 evs.length
    simp
  · show ((evs.mergeSort evidenceBefore).take 10).Pairwise _
    have hs : (evs.mergeSort evidenceBefore).Pairwise (evidenceBefore · ·) :=
      List.sorted_mergeSort evidenceBefore_trans evidenceBefore_total evs
    refine (List.Pairwise.sublist (List.take_sublist 10 _) hs).imp ?_
    intro a b h
    unfold evidenceBefore at h
    simpa only [Bool.or_eq_true, Bool.and_eq_true, decide_eq_true_eq] using h

end Origo
